import Mathlib

/-! # Reflect: type compatibility, constructors and functions

A shallow embedding of `Constructor.hpp`, `Conversion.hpp` and `Function.hpp`.

* A `TypeDescriptor const *` is an address; the registry is the heap that maps an address to the
  descriptor stored there.  Descriptor identity is address equality, as in the source.
* A `std::any` is either empty or holds one value together with the C++ type it was stored at;
  `std::any_cast<T>(&a)` yields the contained object only when that type is exactly `T`.
* Code that takes an argument by reference returns the state of that argument next to its result,
  and every call of an underlying constructor, factory or routine is recorded in a call log.
-/

namespace Reflect

/-! ## Type descriptors -/

/-- Address of a `TypeDescriptor`. `Details::Resolve<T>()` yields the one address registered for
`T`, so a registered C++ type is identified with the address of its descriptor. -/
abbrev TypePtr := Nat

/-- Modelled from the spec: `Base.hpp` is not among the sources. A base entry names the
descriptor of one direct ancestor, read through `GetType()`. -/
structure Base where
  mType : TypePtr
  deriving DecidableEq, Repr

/-- Accessor `Base::GetType`. -/
def Base.GetType (b : Base) : TypePtr := b.mType

/-- The data of `class Conversion` (`Conversion.hpp`): the two descriptors it was built with. -/
structure Conversion where
  mFromType : TypePtr
  mToType : TypePtr
  deriving DecidableEq, Repr

/-- Accessor `Conversion::GetFromType`. -/
def Conversion.GetFromType (c : Conversion) : TypePtr := c.mFromType

/-- Accessor `Conversion::GetToType`. -/
def Conversion.GetToType (c : Conversion) : TypePtr := c.mToType

/-- Modelled from the spec: `TypeDescriptor.hpp` is not among the sources. A descriptor carries an
ordered sequence of direct base entries and an ordered sequence of registered conversions, read
through `GetBases()` and `GetConversions()`. -/
structure TypeDescriptor where
  mBases : List Base
  mConversions : List Conversion
  deriving DecidableEq, Repr

/-- Accessor `TypeDescriptor::GetBases`. -/
def TypeDescriptor.GetBases (t : TypeDescriptor) : List Base := t.mBases

/-- Accessor `TypeDescriptor::GetConversions`. -/
def TypeDescriptor.GetConversions (t : TypeDescriptor) : List Conversion := t.mConversions

/-- The registry: the descriptor stored at each address. -/
abbrev Registry := TypePtr → TypeDescriptor

/-! ## `CanCastOrConvert` (Constructor.hpp, lines 15-29) -/

/-- The loop `for (auto *base : from->GetBases()) if (base->GetType() == to) return true;`
run over the remaining base entries; `false` means the loop fell through. -/
def CanCastOrConvert.basesLoop (toT : TypePtr) : List Base → Bool
  | [] => false
  | base :: rest => if base.GetType = toT then true else CanCastOrConvert.basesLoop toT rest

/-- The loop `for (auto *conversion : from->GetConversions()) if (conversion->GetToType() == to)
return true;` run over the remaining conversions; `false` means the loop fell through. -/
def CanCastOrConvert.conversionsLoop (toT : TypePtr) : List Conversion → Bool
  | [] => false
  | conversion :: rest =>
    if conversion.GetToType = toT then true else CanCastOrConvert.conversionsLoop toT rest

/-- `bool CanCastOrConvert(const TypeDescriptor *from, const TypeDescriptor *to)`. -/
def CanCastOrConvert (reg : Registry) (fromT toT : TypePtr) : Bool :=
  if fromT = toT then true
  else if CanCastOrConvert.basesLoop toT (reg fromT).GetBases then true
  else if CanCastOrConvert.conversionsLoop toT (reg fromT).GetConversions then true
  else false

/-- The direct-base relation of a registry: `b` is the type of one of the base entries of `a`. -/
def IsDirectBase (reg : Registry) (a b : TypePtr) : Prop :=
  ∃ base ∈ (reg a).GetBases, base.GetType = b

/-- Some conversion registered on `a` has `b` as its target type. -/
def HasConversionTo (reg : Registry) (a b : TypePtr) : Prop :=
  ∃ conversion ∈ (reg a).GetConversions, conversion.GetToType = b

/-- Class inheritance is a strict order: no type is a direct base of one of its own direct bases
(in particular no type is its own base). -/
def BasesAsymmetric (reg : Registry) : Prop :=
  ∀ a b, IsDirectBase reg a b → ¬ IsDirectBase reg b a

/-! ### A small registry: `Shape` is a base of `Circle`, `int` converts to `double` -/

/-- Address of the descriptor of `int`. -/
def tInt : TypePtr := 0
/-- Address of the descriptor of `double`. -/
def tDouble : TypePtr := 1
/-- Address of the descriptor of `Shape`. -/
def tShape : TypePtr := 2
/-- Address of the descriptor of `Circle`. -/
def tCircle : TypePtr := 3
/-- Address of the descriptor of `Point`. -/
def tPoint : TypePtr := 4

/-- Registry of the scenarios: `Circle` lists `Shape` as a base, `int` has a conversion to
`double`; nothing else is registered. -/
def sampleRegistry : Registry := fun p =>
  if p = tCircle then ⟨[⟨tShape⟩], []⟩
  else if p = tInt then ⟨[], [⟨tInt, tDouble⟩]⟩
  else ⟨[], []⟩

/-! ## `std::any` -/

/-- The C++ type a `std::any` reports through `type()`: a registered type, or a pointer type.
Two types are the same exactly when they are the same term, so `T*` differs from `T`. -/
inductive CType where
  | obj (d : TypePtr)
  | ptr (pointee : CType)
  deriving DecidableEq, Repr

/-- A C++ value: an object of the value domain `V`, the null pointer, or a pointer, which is
represented by the object it points to. -/
inductive CValue (V : Type) where
  | obj (v : V)
  | nullPtr
  | ptrTo (pointee : CValue V)
  deriving DecidableEq, Repr

/-- The content of a non-empty `std::any`: the stored value and the type it was stored at. -/
structure Held (V : Type) where
  type : CType
  value : CValue V
  deriving DecidableEq, Repr

/-- A `std::any`: `none` is the empty value `std::any()`. -/
abbrev StdAny (V : Type) := Option (Held V)

/-- The pointer form `std::any_cast<T>(&operand)`: the contained object when the operand holds a
value stored at exactly `T`, the null pointer (`none`) otherwise, also for an empty operand. -/
def any_cast {V : Type} (T : CType) (operand : StdAny V) : Option (CValue V) :=
  match operand with
  | none => none
  | some held => if held.type = T then some held.value else none

/-- The value of a pointer obtained from `any_cast`, as a C++ value of pointer type. -/
def pointerValue {V : Type} : Option (CValue V) → CValue V
  | none => CValue.nullPtr
  | some pointee => CValue.ptrTo pointee

/-- Construction `std::any(p)` of an any from a pointer `p` of type `T*`: the any holds the
pointer, stored at the pointer type. -/
def anyOfPointer {V : Type} (T : CType) (p : Option (CValue V)) : StdAny V :=
  some ⟨CType.ptr T, pointerValue p⟩

/-- One recorded call of an underlying constructor, factory or routine: the receiver it ran on
(none for constructors, factories and free functions) and the argument values it was given. -/
structure Call (V : Type) where
  receiver : Option (CValue V)
  args : List (CValue V)
  deriving DecidableEq, Repr

/-! ## Argument binding

The three statements that open every `NewInstanceImpl` and `InvokeImpl`
(Constructor.hpp 100-102 and 128-130; Function.hpp 87-89, 124-126, 157-159, 191-193, 224-226):
```
std::tuple argsTuple = std::make_tuple(std::any_cast<T>(&args[indices])...);
std::vector<std::any> convertedArgs{ std::get<indices>(argsTuple)... };
argsTuple = std::make_tuple(std::any_cast<T>(&convertedArgs[indices])...);
```
where `T` is `std::remove_cv_t<std::remove_reference_t<Args>>`.  The elements of the first tuple
are pointers `T*`, so each element of `convertedArgs` is an any built from a pointer. -/

/-- The first statement: one `any_cast` per parameter type, on the argument at the same index.
Callers have checked that `args` has one element per parameter. -/
def firstExtraction {V : Type} (Ts : List CType) (args : List (StdAny V)) :
    List (Option (CValue V)) :=
  List.zipWith any_cast Ts args

/-- The second statement: the vector of anys built from the elements of the tuple. -/
def convertedArgs {V : Type} (Ts : List CType) (argsTuple : List (Option (CValue V))) :
    List (StdAny V) :=
  List.zipWith anyOfPointer Ts argsTuple

/-- The tuple after the third statement. -/
def bindArgs {V : Type} (Ts : List CType) (args : List (StdAny V)) : List (Option (CValue V)) :=
  List.zipWith any_cast Ts (convertedArgs Ts (firstExtraction Ts args))

/-- The test `(std::get<indices>(argsTuple) && ...)`: every pointer of the tuple is non-null
(true for the empty tuple). -/
def allValid {V : Type} (argsTuple : List (Option (CValue V))) : Bool :=
  argsTuple.all Option.isSome

/-- The values `*std::get<indices>(argsTuple)...` passed on when every pointer is non-null. -/
def derefAll {V : Type} (argsTuple : List (Option (CValue V))) : List (CValue V) :=
  argsTuple.filterMap id

/-! ## Constructors (Constructor.hpp) -/

/-- What a call of `NewInstance` leaves behind: the returned any, the argument vector (passed by
reference) after the call, and the calls of the underlying constructor or factory. -/
structure NewInstanceResult (V : Type) where
  ret : StdAny V
  args : List (StdAny V)
  calls : List (Call V)
  deriving DecidableEq, Repr

/-- Template `ConstructorImpl<Type, Args...>`: the produced type, the parameter types and the
constructor `Type(Args...)` of the produced type. -/
structure ConstructorImpl (V : Type) where
  Ty : TypePtr
  Args : List TypePtr
  construct : List (CValue V) → CValue V

/-- Template `FreeFunConstructor<Type, Args...>`: the produced type, the parameter types and the
factory `mCtorFun`. -/
structure FreeFunConstructor (V : Type) where
  Ty : TypePtr
  Args : List TypePtr
  mCtorFun : List (CValue V) → CValue V

/-- `ConstructorImpl::NewInstanceImpl` (lines 92-108). -/
def ConstructorImpl.NewInstanceImpl {V : Type} (c : ConstructorImpl V) (args : List (StdAny V)) :
    NewInstanceResult V :=
  let argsTuple := bindArgs (c.Args.map CType.obj) args
  if allValid argsTuple then
    ⟨some ⟨CType.obj c.Ty, c.construct (derefAll argsTuple)⟩, args, [⟨none, derefAll argsTuple⟩]⟩
  else
    ⟨none, args, []⟩

/-- `FreeFunConstructor::NewInstanceImpl` (lines 120-136). -/
def FreeFunConstructor.NewInstanceImpl {V : Type} (c : FreeFunConstructor V)
    (args : List (StdAny V)) : NewInstanceResult V :=
  let argsTuple := bindArgs (c.Args.map CType.obj) args
  if allValid argsTuple then
    ⟨some ⟨CType.obj c.Ty, c.mCtorFun (derefAll argsTuple)⟩, args, [⟨none, derefAll argsTuple⟩]⟩
  else
    ⟨none, args, []⟩

/-- The class `Constructor` with its two implementations. -/
inductive Constructor (V : Type) where
  | direct (c : ConstructorImpl V)
  | freeFun (c : FreeFunConstructor V)

/-- Member `mParent`, as the implementations pass it to the base constructor (lines 89, 117). -/
def Constructor.mParent {V : Type} : Constructor V → TypePtr
  | .direct c => c.Ty
  | .freeFun c => c.Ty

/-- Member `mParamTypes`, as the implementations pass it to the base constructor. -/
def Constructor.mParamTypes {V : Type} : Constructor V → List TypePtr
  | .direct c => c.Args
  | .freeFun c => c.Args

/-- The underlying constructor or factory, called directly on argument values. -/
def Constructor.underlying {V : Type} : Constructor V → List (CValue V) → CValue V
  | .direct c => c.construct
  | .freeFun c => c.mCtorFun

/-- The virtual `Constructor::NewInstanceImpl`. -/
def Constructor.NewInstanceImpl {V : Type} : Constructor V → List (StdAny V) → NewInstanceResult V
  | .direct c => c.NewInstanceImpl
  | .freeFun c => c.NewInstanceImpl

/-- `Constructor::GetParent`. -/
def Constructor.GetParent {V : Type} (c : Constructor V) : TypePtr := c.mParent

/-- `Constructor::GetParamType`: `mParamTypes[index]`; `none` stands for a read outside the
vector. -/
def Constructor.GetParamType {V : Type} (c : Constructor V) (index : Nat) : Option TypePtr :=
  c.mParamTypes[index]?

/-- `Constructor::GetNumParams`. -/
def Constructor.GetNumParams {V : Type} (c : Constructor V) : Nat := c.mParamTypes.length

/-- `Constructor::NewInstance` (lines 34-40; the variadic overload of lines 42-52 wraps its
arguments into such a vector and does the same). -/
def Constructor.NewInstance {V : Type} (c : Constructor V) (args : List (StdAny V)) :
    NewInstanceResult V :=
  if args.length = c.mParamTypes.length then c.NewInstanceImpl args
  else ⟨none, args, []⟩

/-- The fold `(CanCastOrConvert(Details::Resolve<Args>(), GetParamType(indices)) && ...)` over the
remaining argument types and indices: `&&` stops at the first false operand. `none` stands for a
read of `mParamTypes` outside the vector. -/
def Constructor.CanConstruct.fold {V : Type} (reg : Registry) (c : Constructor V) :
    List TypePtr → List Nat → Option Bool
  | argT :: argTs, index :: indices =>
    match c.GetParamType index with
    | none => none
    | some paramT =>
      if CanCastOrConvert reg argT paramT then Constructor.CanConstruct.fold reg c argTs indices
      else some false
  | _, _ => some true

/-- `Constructor::CanConstruct<Args...>` (lines 69-73) with the index sequence
`std::index_sequence_for<Args...>`, that is `0, 1, ..., sizeof...(Args) - 1`. -/
def Constructor.CanConstruct {V : Type} (reg : Registry) (c : Constructor V)
    (ArgTs : List TypePtr) : Option Bool :=
  if c.GetNumParams = ArgTs.length then
    Constructor.CanConstruct.fold reg c ArgTs (List.range ArgTs.length)
  else some false

/-! ## Functions (Function.hpp) -/

/-- What a call of `Invoke` or `InvokeImpl` leaves behind: the returned any, the state after the
call of the any that the function names `object`, and the calls of the underlying routine. -/
structure InvokeResult (V : Type) where
  ret : StdAny V
  object : StdAny V
  calls : List (Call V)
  deriving DecidableEq, Repr

/-- `Function::Invoke` (lines 20-31), over the virtual `InvokeImpl` of the descriptor. Each
supplied argument arrives wrapped in an any. The virtual function is declared
`InvokeImpl(std::any object, std::vector<std::any> &args)` (line 61): its first parameter is
passed by value, so the implementation works on a copy of the caller's any, and that copy ends
with the call. The `object` of the result is the caller's any. -/
def Function.Invoke {V : Type} (mParamTypes : List TypePtr)
    (InvokeImpl : StdAny V → List (StdAny V) → InvokeResult V)
    (object : StdAny V) (args : List (StdAny V)) : InvokeResult V :=
  if args.length = mParamTypes.length then
    let anyArgs := args
    let done := InvokeImpl object anyArgs
    ⟨done.ret, object, done.calls⟩
  else
    ⟨none, object, []⟩

/-- Template `FreeFunction<Ret, Args...>` with a non-void `Ret`. -/
structure FreeFunction (V : Type) where
  Ret : TypePtr
  Args : List TypePtr
  mFreeFunPtr : List (CValue V) → CValue V

/-- `FreeFunction::InvokeImpl` (lines 79-98); the receiver parameter is unnamed and unused. -/
def FreeFunction.InvokeImpl {V : Type} (f : FreeFunction V) (object : StdAny V)
    (args : List (StdAny V)) : InvokeResult V :=
  let argsTuple := bindArgs (f.Args.map CType.obj) args
  if allValid argsTuple then
    ⟨some ⟨CType.obj f.Ret, f.mFreeFunPtr (derefAll argsTuple)⟩, object,
      [⟨none, derefAll argsTuple⟩]⟩
  else
    ⟨none, object, []⟩

/-- `Invoke` on a free function descriptor. -/
def FreeFunction.Invoke {V : Type} (f : FreeFunction V) (object : StdAny V)
    (args : List (StdAny V)) : InvokeResult V :=
  Function.Invoke f.Args f.InvokeImpl object args

/-- Template `MemberFunction<C, Ret, Args...>` with a non-void `Ret`. The routine `mMemFunPtr`
runs on a receiver and argument values and yields its return value and the receiver as it
leaves it. -/
structure MemberFunction (V : Type) where
  C : TypePtr
  Ret : TypePtr
  Args : List TypePtr
  mMemFunPtr : CValue V → List (CValue V) → CValue V × CValue V

/-- `MemberFunction::InvokeImpl` (lines 149-165). The routine runs on the object held by the any
named `object`, through the pointer `obj`. -/
def MemberFunction.InvokeImpl {V : Type} (f : MemberFunction V) (object : StdAny V)
    (args : List (StdAny V)) : InvokeResult V :=
  let argsTuple := bindArgs (f.Args.map CType.obj) args
  let obj := any_cast (CType.obj f.C) object
  if allValid argsTuple then
    match obj with
    | some self =>
      let out := f.mMemFunPtr self (derefAll argsTuple)
      ⟨some ⟨CType.obj f.Ret, out.1⟩, some ⟨CType.obj f.C, out.2⟩,
        [⟨some self, derefAll argsTuple⟩]⟩
    | none => ⟨none, object, []⟩
  else
    ⟨none, object, []⟩

/-- `Invoke` on a member function descriptor. -/
def MemberFunction.Invoke {V : Type} (f : MemberFunction V) (object : StdAny V)
    (args : List (StdAny V)) : InvokeResult V :=
  Function.Invoke f.Args f.InvokeImpl object args

/-- Template `ConstMemberFunction<C, Ret, Args...>`; `retIsVoid` is `std::is_void<Ret>::value`.
The routine cannot change its receiver. -/
structure ConstMemberFunction (V : Type) where
  C : TypePtr
  Ret : TypePtr
  retIsVoid : Bool
  Args : List TypePtr
  mConstMemFunPtr : CValue V → List (CValue V) → CValue V

/-- `ConstMemberFunction::InvokeImpl` (lines 216-239). -/
def ConstMemberFunction.InvokeImpl {V : Type} (f : ConstMemberFunction V) (object : StdAny V)
    (args : List (StdAny V)) : InvokeResult V :=
  let argsTuple := bindArgs (f.Args.map CType.obj) args
  let obj := any_cast (CType.obj f.C) object
  match obj with
  | some self =>
    if allValid argsTuple then
      if f.retIsVoid then
        ⟨none, object, [⟨some self, derefAll argsTuple⟩]⟩
      else
        ⟨some ⟨CType.obj f.Ret, f.mConstMemFunPtr self (derefAll argsTuple)⟩, object,
          [⟨some self, derefAll argsTuple⟩]⟩
    else ⟨none, object, []⟩
  | none => ⟨none, object, []⟩

/-- `Invoke` on a const member function descriptor. -/
def ConstMemberFunction.Invoke {V : Type} (f : ConstMemberFunction V) (object : StdAny V)
    (args : List (StdAny V)) : InvokeResult V :=
  Function.Invoke f.Args f.InvokeImpl object args

/-- A descriptor of a member function: mutating (`MemberFunction`) or const
(`ConstMemberFunction`). -/
inductive MemberDescriptor (V : Type) where
  | mutating (f : MemberFunction V)
  | constant (f : ConstMemberFunction V)

/-- `Function::GetParent` of a member descriptor: the owner `Details::Resolve<C>()` handed to the
base constructor (lines 146, 213). -/
def MemberDescriptor.GetParent {V : Type} : MemberDescriptor V → TypePtr
  | .mutating f => f.C
  | .constant f => f.C

/-- `Function::Invoke` of a member descriptor. -/
def MemberDescriptor.Invoke {V : Type} : MemberDescriptor V → StdAny V → List (StdAny V) →
    InvokeResult V
  | .mutating f => f.Invoke
  | .constant f => f.Invoke

/-! ## Sample types and descriptors -/

/-- Values of the sample types: `int`, `Point{x, y}`, `Circle{radius}` and a `Counter{count}`. -/
inductive SampleVal where
  | int (n : Int)
  | point (x y : Int)
  | circle (radius : Int)
  | counter (count : Int)
  deriving DecidableEq, Repr

/-- Address of the descriptor of `Counter`. -/
def tCounter : TypePtr := 5

/-- An any holding the `int` value `n`. -/
def anyInt (n : Int) : StdAny SampleVal := some ⟨CType.obj tInt, CValue.obj (SampleVal.int n)⟩

/-- The constructor `Point(int x, int y)`. -/
def makePoint : List (CValue SampleVal) → CValue SampleVal
  | [CValue.obj (SampleVal.int x), CValue.obj (SampleVal.int y)] => CValue.obj (SampleVal.point x y)
  | _ => CValue.obj (SampleVal.point 0 0)

/-- Descriptor `ConstructorImpl<Point, int, int>`. -/
def pointCtor : Constructor SampleVal := Constructor.direct ⟨tPoint, [tInt, tInt], makePoint⟩

/-- Descriptor `FreeFunConstructor<Point, int, int>` over a factory that calls `Point(x, y)`. -/
def pointFactory : Constructor SampleVal := Constructor.freeFun ⟨tPoint, [tInt, tInt], makePoint⟩

/-- The free function `int add(int a, int b)`. -/
def addInts : List (CValue SampleVal) → CValue SampleVal
  | [CValue.obj (SampleVal.int a), CValue.obj (SampleVal.int b)] => CValue.obj (SampleVal.int (a + b))
  | _ => CValue.obj (SampleVal.int 0)

/-- Descriptor `FreeFunction<int, int, int>` of `add`. -/
def addFunction : FreeFunction SampleVal := ⟨tInt, [tInt, tInt], addInts⟩

/-- The member `int Counter::Next()`: adds one to the count and returns the new count. -/
def counterNext : CValue SampleVal → List (CValue SampleVal) → CValue SampleVal × CValue SampleVal
  | CValue.obj (SampleVal.counter n), _ =>
    (CValue.obj (SampleVal.int (n + 1)), CValue.obj (SampleVal.counter (n + 1)))
  | self, _ => (CValue.obj (SampleVal.int 0), self)

/-- Descriptor `MemberFunction<Counter, int>` of `Counter::Next`. -/
def nextFunction : MemberFunction SampleVal := ⟨tCounter, tInt, [], counterNext⟩

/-- The member `int Circle::Area() const`, with integer arithmetic: three times the squared
radius. -/
def circleArea : CValue SampleVal → List (CValue SampleVal) → CValue SampleVal
  | CValue.obj (SampleVal.circle r), _ => CValue.obj (SampleVal.int (3 * r * r))
  | _, _ => CValue.obj (SampleVal.int 0)

/-- Descriptor `ConstMemberFunction<Circle, int>` of `Circle::Area`. -/
def areaFunction : ConstMemberFunction SampleVal := ⟨tCircle, tInt, false, [], circleArea⟩

/-- An any holding a `Counter` with the given count. -/
def anyCounter (n : Int) : StdAny SampleVal :=
  some ⟨CType.obj tCounter, CValue.obj (SampleVal.counter n)⟩

/-- An any holding a `Point`. -/
def anyPoint (x y : Int) : StdAny SampleVal :=
  some ⟨CType.obj tPoint, CValue.obj (SampleVal.point x y)⟩

/-! ## Void functions and the descriptors as one family (Function.hpp) -/

/-- Specialization `FreeFunction<void, Args...>`. The routine returns nothing; what it does lies
outside the values modelled here, and each call of it is recorded in the call log. -/
structure FreeFunctionVoid (V : Type) where
  Args : List TypePtr
  mFreeFunPtr : List (CValue V) → Unit

/-- `FreeFunction<void, Args...>::InvokeImpl` (lines 116-132); the receiver parameter is unnamed
and unused, and `std::any()` is returned on every path. -/
def FreeFunctionVoid.InvokeImpl {V : Type} (f : FreeFunctionVoid V) (object : StdAny V)
    (args : List (StdAny V)) : InvokeResult V :=
  let argsTuple := bindArgs (f.Args.map CType.obj) args
  if allValid argsTuple then
    ⟨none, object, [⟨none, derefAll argsTuple⟩]⟩
  else
    ⟨none, object, []⟩

/-- `Invoke` on a void free function descriptor. -/
def FreeFunctionVoid.Invoke {V : Type} (f : FreeFunctionVoid V) (object : StdAny V)
    (args : List (StdAny V)) : InvokeResult V :=
  Function.Invoke f.Args f.InvokeImpl object args

/-- Specialization `MemberFunction<C, void, Args...>`. The routine runs on a receiver and argument
values and yields the receiver as it leaves it. -/
structure MemberFunctionVoid (V : Type) where
  C : TypePtr
  Args : List TypePtr
  mMemFunPtr : CValue V → List (CValue V) → CValue V

/-- `MemberFunction<C, void, Args...>::InvokeImpl` (lines 183-199). Its parameter is
`std::any& object`: the routine runs on the object held by the any it is given, and `std::any()`
is returned on every path. -/
def MemberFunctionVoid.InvokeImpl {V : Type} (f : MemberFunctionVoid V) (object : StdAny V)
    (args : List (StdAny V)) : InvokeResult V :=
  let argsTuple := bindArgs (f.Args.map CType.obj) args
  let obj := any_cast (CType.obj f.C) object
  if allValid argsTuple then
    match obj with
    | some self =>
      ⟨none, some ⟨CType.obj f.C, f.mMemFunPtr self (derefAll argsTuple)⟩,
        [⟨some self, derefAll argsTuple⟩]⟩
    | none => ⟨none, object, []⟩
  else
    ⟨none, object, []⟩

/-- `Invoke` on a void member function descriptor: the arity test of `Function::Invoke`, then the
`InvokeImpl` of the specialization. That `InvokeImpl` is declared with `std::any&` where the
virtual of line 61 has `std::any`, so it is not the function the base class declares; the model
runs its body on the any handed to `Invoke`. -/
def MemberFunctionVoid.Invoke {V : Type} (f : MemberFunctionVoid V) (object : StdAny V)
    (args : List (StdAny V)) : InvokeResult V :=
  if args.length = f.Args.length then f.InvokeImpl object args
  else ⟨none, object, []⟩

/-- A function descriptor of any of the five classes of Function.hpp. -/
inductive FunctionDescriptor (V : Type) where
  | free (f : FreeFunction V)
  | freeVoid (f : FreeFunctionVoid V)
  | member (f : MemberFunction V)
  | memberVoid (f : MemberFunctionVoid V)
  | constMember (f : ConstMemberFunction V)

/-- Member `mParamTypes` of a function descriptor, as handed to the base constructor. -/
def FunctionDescriptor.mParamTypes {V : Type} : FunctionDescriptor V → List TypePtr
  | .free f => f.Args
  | .freeVoid f => f.Args
  | .member f => f.Args
  | .memberVoid f => f.Args
  | .constMember f => f.Args

/-- `Function::GetNumParams`. -/
def FunctionDescriptor.GetNumParams {V : Type} (d : FunctionDescriptor V) : Nat :=
  d.mParamTypes.length

/-- `Function::Invoke` of a function descriptor. -/
def FunctionDescriptor.Invoke {V : Type} : FunctionDescriptor V → StdAny V → List (StdAny V) →
    InvokeResult V
  | .free f => f.Invoke
  | .freeVoid f => f.Invoke
  | .member f => f.Invoke
  | .memberVoid f => f.Invoke
  | .constMember f => f.Invoke

/-- Whether the return type of the descriptor is `void`. -/
def FunctionDescriptor.returnsVoid {V : Type} : FunctionDescriptor V → Bool
  | .free _ => false
  | .freeVoid _ => true
  | .member _ => false
  | .memberVoid _ => true
  | .constMember f => f.retIsVoid

/-- A descriptor of a free function, void or not. -/
inductive FreeDescriptor (V : Type) where
  | returning (f : FreeFunction V)
  | void (f : FreeFunctionVoid V)

/-- `Function::Invoke` of a free function descriptor. -/
def FreeDescriptor.Invoke {V : Type} : FreeDescriptor V → StdAny V → List (StdAny V) →
    InvokeResult V
  | .returning f => f.Invoke
  | .void f => f.Invoke

/-! ## Single-pass binding -/

/-- The binding the specification describes: each argument extracted once, at its exact declared
type, with no intermediate list. -/
def singlePassBinding {V : Type} (Ts : List CType) (args : List (StdAny V)) :
    List (Option (CValue V)) :=
  List.zipWith any_cast Ts args

/-- The type a `std::any` holds, if it holds a value. -/
def heldType {V : Type} (a : StdAny V) : Option CType := a.map Held.type

/-! ## Data members (DataMember.hpp) -/

/-- How a piece of code that dereferences pointers ends: it completes with a result, or it
dereferences a null pointer, which is undefined behaviour. -/
inductive Run (α : Type) where
  | done (result : α)
  | undefinedBehaviour
  deriving DecidableEq, Repr

/-- Template `PtrDataMember<Class, Type>`. `typeIsConst` is `std::is_const<Type>`; the member
pointer `mDataMemberPtr` is given by what reading `obj->*mDataMemberPtr` yields and by the object
that the assignment `obj->*mDataMemberPtr = val` leaves. -/
structure PtrDataMember (V : Type) where
  Class : TypePtr
  Ty : TypePtr
  typeIsConst : Bool
  read : CValue V → CValue V
  assign : CValue V → CValue V → CValue V

/-- `PtrDataMember::SetImpl(std::any&, const std::any&, std::false_type)` (lines 58-64): both
pointers are dereferenced without a test. The result is the any `object` after the call. -/
def PtrDataMember.SetImplFalse {V : Type} (m : PtrDataMember V) (object value : StdAny V) :
    Run (StdAny V) :=
  let obj := any_cast (CType.obj m.Class) object
  let val := any_cast (CType.obj m.Ty) value
  match obj, val with
  | some self, some v => Run.done (some ⟨CType.obj m.Class, m.assign self v⟩)
  | _, _ => Run.undefinedBehaviour

/-- `PtrDataMember::SetImpl(std::any&, const std::any&, std::true_type)` (lines 66-69): the body
is empty. -/
def PtrDataMember.SetImplTrue {V : Type} (_m : PtrDataMember V) (object _value : StdAny V) :
    Run (StdAny V) :=
  Run.done object

/-- `PtrDataMember::Set` (lines 44-47): tag dispatch on `std::is_const<Type>`. -/
def PtrDataMember.Set {V : Type} (m : PtrDataMember V) (object value : StdAny V) :
    Run (StdAny V) :=
  if m.typeIsConst then m.SetImplTrue object value else m.SetImplFalse object value

/-- `PtrDataMember::Get` (lines 49-52): `std::any_cast<Class>(&object)->*mDataMemberPtr`, returned
as an any. -/
def PtrDataMember.Get {V : Type} (m : PtrDataMember V) (object : StdAny V) : Run (StdAny V) :=
  match any_cast (CType.obj m.Class) object with
  | some self => Run.done (some ⟨CType.obj m.Ty, m.read self⟩)
  | none => Run.undefinedBehaviour

/-- Template `SetGetDataMember<Setter, Getter, Class>`. `Setter` gives the object that the call
`(obj->*Setter)(val)` or `Setter(*obj, val)` leaves, `Getter` the value that `(obj->*Getter)()` or
`Getter(*obj)` returns. -/
structure SetGetDataMember (V : Type) where
  Class : TypePtr
  MemberType : TypePtr
  Setter : CValue V → CValue V → CValue V
  Getter : CValue V → CValue V

/-- `SetGetDataMember::Set` (lines 102-116): both pointers are dereferenced without a test. -/
def SetGetDataMember.Set {V : Type} (m : SetGetDataMember V) (object value : StdAny V) :
    Run (StdAny V) :=
  let obj := any_cast (CType.obj m.Class) object
  let val := any_cast (CType.obj m.MemberType) value
  match obj, val with
  | some self, some v => Run.done (some ⟨CType.obj m.Class, m.Setter self v⟩)
  | _, _ => Run.undefinedBehaviour

/-- `SetGetDataMember::Get` (lines 118-130). -/
def SetGetDataMember.Get {V : Type} (m : SetGetDataMember V) (object : StdAny V) :
    Run (StdAny V) :=
  match any_cast (CType.obj m.Class) object with
  | some self => Run.done (some ⟨CType.obj m.MemberType, m.Getter self⟩)
  | none => Run.undefinedBehaviour

/-! ## Conversions (Conversion.hpp) -/

/-- Template `ConversionImpl<From, To>`; `staticCast` is `static_cast<To>` on a value of type
`From`. -/
structure ConversionImpl (V : Type) where
  From : TypePtr
  To : TypePtr
  staticCast : CValue V → CValue V

/-- The base-class part of a `ConversionImpl`, as its constructor builds it (line 32):
`Conversion(Details::Resolve<From>(), Details::Resolve<To>())`. -/
def ConversionImpl.toConversion {V : Type} (c : ConversionImpl V) : Conversion :=
  ⟨c.From, c.To⟩

/-- What a call of `Convert` leaves behind: the returned any and the object behind the
`const void *` after the call. -/
structure ConvertResult (V : Type) where
  ret : StdAny V
  object : CValue V
  deriving DecidableEq, Repr

/-- `ConversionImpl::Convert` (lines 34-38) on a pointer to an instance of `From`:
`return static_cast<To>(*static_cast<const From*>(object));`. -/
def ConversionImpl.Convert {V : Type} (c : ConversionImpl V) (object : CValue V) :
    ConvertResult V :=
  ⟨some ⟨CType.obj c.To, c.staticCast object⟩, object⟩

/-! ## More sample descriptors -/

/-- The member pointer `&Point::x`, read. -/
def pointReadX : CValue SampleVal → CValue SampleVal
  | CValue.obj (SampleVal.point x _) => CValue.obj (SampleVal.int x)
  | other => other

/-- The member pointer `&Point::x`, assigned an `int`. -/
def pointAssignX : CValue SampleVal → CValue SampleVal → CValue SampleVal
  | CValue.obj (SampleVal.point _ y), CValue.obj (SampleVal.int v) =>
    CValue.obj (SampleVal.point v y)
  | self, _ => self

/-- Descriptor `PtrDataMember<Point, int>` of the mutable field `x`. -/
def xMember : PtrDataMember SampleVal := ⟨tPoint, tInt, false, pointReadX, pointAssignX⟩

/-- Descriptor `PtrDataMember<Point, const int>` of a field `x` declared `const int`. -/
def constXMember : PtrDataMember SampleVal := ⟨tPoint, tInt, true, pointReadX, pointAssignX⟩

/-- Descriptor `SetGetDataMember<&Point::SetX, &Point::GetX, Point>`. -/
def xAccessors : SetGetDataMember SampleVal := ⟨tPoint, tInt, pointAssignX, pointReadX⟩

/-- An any holding a `Circle`. -/
def anyCircle (r : Int) : StdAny SampleVal :=
  some ⟨CType.obj tCircle, CValue.obj (SampleVal.circle r)⟩

/-- Descriptor `FreeFunction<void>` of a routine `void Tick()`. -/
def tickFunction : FreeFunctionVoid SampleVal := ⟨[], fun _ => ()⟩

/-- Descriptor `FreeFunction<void, int>` of a routine `void Log(int)`. -/
def logFunction : FreeFunctionVoid SampleVal := ⟨[tInt], fun _ => ()⟩

/-- The constructor `Counter()`: a counter at zero. -/
def makeCounter : List (CValue SampleVal) → CValue SampleVal :=
  fun _ => CValue.obj (SampleVal.counter 0)

/-- Descriptor `ConstructorImpl<Counter>` of the default constructor. -/
def counterCtor : Constructor SampleVal := Constructor.direct ⟨tCounter, [], makeCounter⟩

/-- The free function `int Answer()`. -/
def answer : List (CValue SampleVal) → CValue SampleVal :=
  fun _ => CValue.obj (SampleVal.int 42)

/-- Descriptor `FreeFunction<int>` of `Answer`. -/
def answerFunction : FreeFunction SampleVal := ⟨tInt, [], answer⟩

/-- The constructor `Circle(double radius)`, with the radius kept as an integer. -/
def makeCircle : List (CValue SampleVal) → CValue SampleVal
  | [CValue.obj (SampleVal.int r)] => CValue.obj (SampleVal.circle r)
  | _ => CValue.obj (SampleVal.circle 0)

/-- Descriptor `ConstructorImpl<Circle, double>`. -/
def circleCtor : Constructor SampleVal := Constructor.direct ⟨tCircle, [tDouble], makeCircle⟩

/-- The conversion `int -> Counter` by the converting constructor `Counter(int)`. -/
def intToCounter : ConversionImpl SampleVal :=
  ⟨tInt, tCounter, fun x =>
    match x with
    | CValue.obj (SampleVal.int n) => CValue.obj (SampleVal.counter n)
    | other => other⟩

/-! ## Lemmas on the two scans -/

theorem basesLoop_eq_true (toT : TypePtr) (bases : List Base) :
    CanCastOrConvert.basesLoop toT bases = true ↔ ∃ base ∈ bases, base.GetType = toT := by
  induction bases with
  | nil => simp [CanCastOrConvert.basesLoop]
  | cons b rest ih =>
    by_cases h : b.GetType = toT
    · simp [CanCastOrConvert.basesLoop, h]
    · simp [CanCastOrConvert.basesLoop, h, ih]

theorem conversionsLoop_eq_true (toT : TypePtr) (convs : List Conversion) :
    CanCastOrConvert.conversionsLoop toT convs = true ↔
      ∃ conversion ∈ convs, conversion.GetToType = toT := by
  induction convs with
  | nil => simp [CanCastOrConvert.conversionsLoop]
  | cons c rest ih =>
    by_cases h : c.GetToType = toT
    · simp [CanCastOrConvert.conversionsLoop, h]
    · simp [CanCastOrConvert.conversionsLoop, h, ih]

theorem canCastOrConvert_eq_true (reg : Registry) (fromT toT : TypePtr) :
    CanCastOrConvert reg fromT toT = true ↔
      fromT = toT ∨ IsDirectBase reg fromT toT ∨ HasConversionTo reg fromT toT := by
  unfold CanCastOrConvert IsDirectBase HasConversionTo
  rw [← basesLoop_eq_true, ← conversionsLoop_eq_true]
  by_cases h1 : fromT = toT
  · simp [h1]
  · by_cases h2 : CanCastOrConvert.basesLoop toT (reg fromT).GetBases = true
    · simp [h1, h2]
    · by_cases h3 : CanCastOrConvert.conversionsLoop toT (reg fromT).GetConversions = true
      · simp [h1, h2, h3]
      · simp [h1, h2, h3]

theorem sampleRegistry_bases (a : TypePtr) :
    (sampleRegistry a).GetBases = if a = tCircle then [⟨tShape⟩] else [] := by
  unfold sampleRegistry TypeDescriptor.GetBases
  by_cases h1 : a = tCircle
  · simp [h1]
  · have h3 : tInt ≠ tCircle := by decide
    by_cases h2 : a = tInt
    · simp [h2, h3]
    · simp [h1, h2]

theorem sampleRegistry_basesAsymmetric : BasesAsymmetric sampleRegistry := by
  intro a b hab hba
  obtain ⟨x, hx, hxb⟩ := hab
  obtain ⟨y, hy, hya⟩ := hba
  rw [sampleRegistry_bases] at hx hy
  by_cases ha : a = tCircle
  · by_cases hb : b = tCircle
    · simp [ha] at hx
      rw [hx, hb] at hxb
      exact absurd hxb (by decide)
    · simp [hb] at hy
  · simp [ha] at hx

/-! ## Lemmas on argument binding -/

theorem CType.ptr_ne_self (T : CType) : CType.ptr T ≠ T := by
  induction T with
  | obj d => intro h; cases h
  | ptr t ih =>
    intro h
    injection h with h2
    exact ih h2

theorem any_cast_anyOfPointer {V : Type} (T : CType) (p : Option (CValue V)) :
    any_cast T (anyOfPointer T p) = none := by
  simp [any_cast, anyOfPointer, CType.ptr_ne_self]

theorem bindArgs_eq_replicate {V : Type} (Ts : List CType) (args : List (StdAny V)) :
    bindArgs Ts args = List.replicate (min Ts.length args.length) none := by
  induction Ts generalizing args with
  | nil => simp [bindArgs, convertedArgs, firstExtraction]
  | cons T rest ih =>
    cases args with
    | nil => simp [bindArgs, convertedArgs, firstExtraction]
    | cons a as =>
      have h := ih as
      simp only [bindArgs, convertedArgs, firstExtraction] at h
      simp only [bindArgs, convertedArgs, firstExtraction, List.zipWith_cons_cons,
        any_cast_anyOfPointer, h, List.length_cons]
      rw [Nat.succ_min_succ, List.replicate_succ]

theorem allValid_bindArgs_of_pos {V : Type} (Ts : List CType) (args : List (StdAny V))
    (hlen : args.length = Ts.length) (hpos : 0 < Ts.length) :
    allValid (bindArgs Ts args) = false := by
  rw [bindArgs_eq_replicate, hlen, Nat.min_self]
  obtain ⟨n, hn⟩ := Nat.exists_eq_succ_of_ne_zero (Nat.pos_iff_ne_zero.mp hpos)
  rw [hn, List.replicate_succ]
  simp [allValid]

theorem newInstanceImpl_of_pos {V : Type} (c : Constructor V) (args : List (StdAny V))
    (hlen : args.length = c.mParamTypes.length) (hpos : 0 < c.mParamTypes.length) :
    c.NewInstanceImpl args = ⟨none, args, []⟩ := by
  cases c with
  | direct d =>
    have h := allValid_bindArgs_of_pos (d.Args.map CType.obj) args
      (by simpa [Constructor.mParamTypes] using hlen)
      (by simpa [Constructor.mParamTypes] using hpos)
    simp [Constructor.NewInstanceImpl, ConstructorImpl.NewInstanceImpl, h]
  | freeFun d =>
    have h := allValid_bindArgs_of_pos (d.Args.map CType.obj) args
      (by simpa [Constructor.mParamTypes] using hlen)
      (by simpa [Constructor.mParamTypes] using hpos)
    simp [Constructor.NewInstanceImpl, FreeFunConstructor.NewInstanceImpl, h]

theorem canConstruct_fold_range {V : Type} (reg : Registry) (c : Constructor V)
    (ArgTs : List TypePtr) (k : Nat) (hk : k + ArgTs.length ≤ c.mParamTypes.length) :
    ∃ b, Constructor.CanConstruct.fold reg c ArgTs (List.range' k ArgTs.length) = some b ∧
      (b = true ↔ ∀ j a, ArgTs[j]? = some a →
        ∃ p, c.GetParamType (k + j) = some p ∧ CanCastOrConvert reg a p = true) := by
  induction ArgTs generalizing k with
  | nil => exact ⟨true, by simp [Constructor.CanConstruct.fold], by simp⟩
  | cons a rest ih =>
    have hlt : k < c.mParamTypes.length := by
      simp only [List.length_cons] at hk
      omega
    have hp : c.GetParamType k = some (c.mParamTypes[k]) := by
      simp [Constructor.GetParamType, List.getElem?_eq_getElem hlt]
    simp only [List.length_cons, List.range'_succ, Constructor.CanConstruct.fold, hp]
    by_cases hc : CanCastOrConvert reg a (c.mParamTypes[k]) = true
    · obtain ⟨b, hb, hiff⟩ := ih (k + 1) (by simp only [List.length_cons] at hk; omega)
      refine ⟨b, by simp [hc, hb], ?_⟩
      rw [hiff]
      constructor
      · intro h j x hx
        cases j with
        | zero =>
          simp only [List.getElem?_cons_zero, Option.some.injEq] at hx
          subst hx
          exact ⟨c.mParamTypes[k], by simpa using hp, hc⟩
        | succ j =>
          simp only [List.getElem?_cons_succ] at hx
          have h2 := h j x hx
          rwa [show k + 1 + j = k + (j + 1) by omega] at h2
      · intro h j x hx
        have h2 := h (j + 1) x (by simpa using hx)
        rwa [show k + (j + 1) = k + 1 + j by omega] at h2
    · refine ⟨false, by simp [hc], ?_⟩
      constructor
      · intro h
        cases h
      · intro h
        obtain ⟨p, hp2, hcc⟩ := h 0 a (by simp)
        rw [Nat.add_zero, hp] at hp2
        cases hp2
        exact absurd hcc hc

/-! ## Compatibility check: the claims -/

/-- C1: `CanCastOrConvert(from, to)` is true exactly when `from` and `to` are the same descriptor,
or `to` is the type of one of `from`'s own base entries, or some conversion registered on `from`
targets `to`; the answer is fixed by the descriptor stored at `from` alone, so the rest of the
registry (bases of bases, conversions of other types) never contributes. -/
theorem C1_canCastOrConvert_iff (reg : Registry) (fromT toT : TypePtr) :
    (CanCastOrConvert reg fromT toT = true ↔
      fromT = toT ∨ (∃ base ∈ (reg fromT).GetBases, base.GetType = toT) ∨
        (∃ conversion ∈ (reg fromT).GetConversions, conversion.GetToType = toT)) ∧
    (∀ reg2 : Registry, reg2 fromT = reg fromT →
      CanCastOrConvert reg2 fromT toT = CanCastOrConvert reg fromT toT) := by
  refine ⟨canCastOrConvert_eq_true reg fromT toT, ?_⟩
  intro reg2 h
  simp [CanCastOrConvert, h]

/-- Witness of C1 on the scenario registry: the conversion `int -> double` registered on `int`
makes `CanCastOrConvert(int, double)` true, in every registry that stores the same descriptor at
`int`. -/
theorem C1_canCastOrConvert_iff_witness :
    CanCastOrConvert sampleRegistry tInt tDouble = true ∧
      (∀ reg2 : Registry, reg2 tInt = sampleRegistry tInt →
        CanCastOrConvert reg2 tInt tDouble = CanCastOrConvert sampleRegistry tInt tDouble) :=
  ⟨(C1_canCastOrConvert_iff sampleRegistry tInt tDouble).1.2
      (Or.inr (Or.inr ⟨⟨tInt, tDouble⟩, by decide, rfl⟩)),
    (C1_canCastOrConvert_iff sampleRegistry tInt tDouble).2⟩

/-- C2: when `B` is a direct base of `A` (inheritance being a strict order on the registered
types), `CanCastOrConvert(A, B)` is true, and `CanCastOrConvert(B, A)` is true only through a
conversion registered on `B` that targets `A`: without one it is false. -/
theorem C2_direct_base_one_way (reg : Registry) (hreg : BasesAsymmetric reg) (A B : TypePtr)
    (hbase : IsDirectBase reg A B) :
    CanCastOrConvert reg A B = true ∧
      (CanCastOrConvert reg B A = true ↔ HasConversionTo reg B A) := by
  constructor
  · exact (canCastOrConvert_eq_true reg A B).2 (Or.inr (Or.inl hbase))
  · rw [canCastOrConvert_eq_true]
    constructor
    · rintro (h | h | h)
      · subst h
        exact absurd hbase (hreg _ _ hbase)
      · exact absurd h (hreg _ _ hbase)
      · exact h
    · intro h
      exact Or.inr (Or.inr h)

/-- Witness of C2 on the scenario registry: `Shape` is a direct base of `Circle`, so
`CanCastOrConvert(Circle, Shape)` holds, and no conversion being registered on `Shape`,
`CanCastOrConvert(Shape, Circle)` is false. -/
theorem C2_direct_base_one_way_witness :
    BasesAsymmetric sampleRegistry ∧ IsDirectBase sampleRegistry tCircle tShape ∧
      (CanCastOrConvert sampleRegistry tCircle tShape = true ∧
        (CanCastOrConvert sampleRegistry tShape tCircle = true ↔
          HasConversionTo sampleRegistry tShape tCircle)) :=
  ⟨sampleRegistry_basesAsymmetric, ⟨⟨tShape⟩, by decide, rfl⟩,
    C2_direct_base_one_way sampleRegistry sampleRegistry_basesAsymmetric tCircle tShape
      ⟨⟨tShape⟩, by decide, rfl⟩⟩

/-- C3: `CanCastOrConvert` is reflexive: `CanCastOrConvert(T, T)` is true for every descriptor
`T`, whatever base and conversion lists the registry stores for it. -/
theorem C3_canCastOrConvert_refl (reg : Registry) (T : TypePtr) :
    CanCastOrConvert reg T T = true := by
  simp [CanCastOrConvert]

/-! ## Constructors: the claims -/

/-- C4: the specification states that `NewInstance` on arguments of exactly the declared types returns the
constructed value. Evaluated on `Point(int, int)` with `[3, 4]`: both arguments hold exactly
`int` and the constructor called directly gives `Point{3, 4}`, yet the direct and the factory
descriptor both return the empty any without calling the constructor, because every element of
`convertedArgs` holds a pointer and the second `any_cast` asks for the pointee type. -/
theorem C4_newInstance_exact_args_returns_empty :
    [anyInt 3, anyInt 4].length = pointCtor.GetNumParams ∧
    any_cast (CType.obj tInt) (anyInt 3) = some (CValue.obj (SampleVal.int 3)) ∧
    any_cast (CType.obj tInt) (anyInt 4) = some (CValue.obj (SampleVal.int 4)) ∧
    pointCtor.underlying [CValue.obj (SampleVal.int 3), CValue.obj (SampleVal.int 4)] =
      CValue.obj (SampleVal.point 3 4) ∧
    pointCtor.NewInstance [anyInt 3, anyInt 4] = ⟨none, [anyInt 3, anyInt 4], []⟩ ∧
    pointFactory.NewInstance [anyInt 3, anyInt 4] = ⟨none, [anyInt 3, anyInt 4], []⟩ := by
  decide

/-- C5: when the number of arguments differs from the number of declared parameters,
`NewInstance` returns the empty any, the underlying constructor or factory is not called, and
the argument vector is left as it was. -/
theorem C5_newInstance_arity_mismatch {V : Type} (c : Constructor V) (args : List (StdAny V))
    (hlen : args.length ≠ c.GetNumParams) :
    (c.NewInstance args).ret = none ∧ (c.NewInstance args).calls = [] ∧
      (c.NewInstance args).args = args := by
  have h : ¬ args.length = c.mParamTypes.length := hlen
  simp [Constructor.NewInstance, h]

/-- Witness of C5: `Point(int, int)` given the one-element list `[3]`. -/
theorem C5_newInstance_arity_mismatch_witness :
    [anyInt 3].length ≠ pointCtor.GetNumParams ∧
      ((pointCtor.NewInstance [anyInt 3]).ret = none ∧
        (pointCtor.NewInstance [anyInt 3]).calls = [] ∧
        (pointCtor.NewInstance [anyInt 3]).args = [anyInt 3]) :=
  ⟨by decide, C5_newInstance_arity_mismatch pointCtor [anyInt 3] (by decide)⟩

/-- C6: when the argument list has the declared length and at some position the element does not
hold exactly the declared parameter type, `NewInstance` returns the empty any, the underlying
constructor or factory is not called, and every element of the argument list is unchanged. -/
theorem C6_newInstance_type_mismatch {V : Type} (c : Constructor V) (args : List (StdAny V))
    (hlen : args.length = c.GetNumParams)
    (hbad : ∃ i T a, c.GetParamType i = some T ∧ args[i]? = some a ∧
      any_cast (CType.obj T) a = none) :
    (c.NewInstance args).ret = none ∧ (c.NewInstance args).calls = [] ∧
      (c.NewInstance args).args = args := by
  obtain ⟨i, T, a, hT, -, -⟩ := hbad
  have hpos : 0 < c.mParamTypes.length := by
    unfold Constructor.GetParamType at hT
    have hi : i < c.mParamTypes.length := by
      by_contra hge
      rw [List.getElem?_eq_none (Nat.le_of_not_lt hge)] at hT
      cases hT
    omega
  have hlen2 : args.length = c.mParamTypes.length := hlen
  simp [Constructor.NewInstance, hlen2, newInstanceImpl_of_pos c args hlen2 hpos]

/-- Witness of C6: `Point(int, int)` given `[3, Point{1, 2}]`, whose second element holds a
`Point` where an `int` is declared. -/
theorem C6_newInstance_type_mismatch_witness :
    [anyInt 3, anyPoint 1 2].length = pointCtor.GetNumParams ∧
      (∃ i T a, pointCtor.GetParamType i = some T ∧ [anyInt 3, anyPoint 1 2][i]? = some a ∧
        any_cast (CType.obj T) a = none) ∧
      ((pointCtor.NewInstance [anyInt 3, anyPoint 1 2]).ret = none ∧
        (pointCtor.NewInstance [anyInt 3, anyPoint 1 2]).calls = [] ∧
        (pointCtor.NewInstance [anyInt 3, anyPoint 1 2]).args = [anyInt 3, anyPoint 1 2]) :=
  ⟨by decide, ⟨1, tInt, anyPoint 1 2, by decide, by decide, by decide⟩,
    C6_newInstance_type_mismatch pointCtor [anyInt 3, anyPoint 1 2] (by decide)
      ⟨1, tInt, anyPoint 1 2, by decide, by decide, by decide⟩⟩

/-- C7: `CanConstruct` always yields a boolean without reading `mParamTypes` outside its bounds,
and it is true exactly when the number of argument types equals `GetNumParams()` and at every
position `CanCastOrConvert(argument type, GetParamType(position))` is true. It only reads
descriptors: it has no call log, so no constructor is invoked. -/
theorem C7_canConstruct_iff {V : Type} (reg : Registry) (c : Constructor V)
    (ArgTs : List TypePtr) :
    ∃ b, c.CanConstruct reg ArgTs = some b ∧
      (b = true ↔ ArgTs.length = c.GetNumParams ∧
        ∀ i a, ArgTs[i]? = some a →
          ∃ p, c.GetParamType i = some p ∧ CanCastOrConvert reg a p = true) := by
  by_cases hlen : c.GetNumParams = ArgTs.length
  · obtain ⟨b, hb, hiff⟩ := canConstruct_fold_range reg c ArgTs 0
      (by rw [Nat.zero_add]; exact Nat.le_of_eq hlen.symm)
    refine ⟨b, ?_, ?_⟩
    · simp only [Constructor.CanConstruct, hlen, if_true, List.range_eq_range']
      exact hb
    · rw [hiff]
      simp only [Nat.zero_add]
      constructor
      · intro h
        exact ⟨hlen.symm, h⟩
      · intro h
        exact h.2
  · refine ⟨false, by simp [Constructor.CanConstruct, hlen], ?_⟩
    constructor
    · intro h
      cases h
    · intro h
      exact absurd h.1.symm hlen

/-- Witness of C7: `Point(int, int)` checked against the argument types `int, int`. -/
theorem C7_canConstruct_iff_witness :
    ∃ b, pointCtor.CanConstruct sampleRegistry [tInt, tInt] = some b ∧
      (b = true ↔ [tInt, tInt].length = pointCtor.GetNumParams ∧
        ∀ i a, [tInt, tInt][i]? = some a →
          ∃ p, pointCtor.GetParamType i = some p ∧ CanCastOrConvert sampleRegistry a p = true) :=
  C7_canConstruct_iff sampleRegistry pointCtor [tInt, tInt]

/-! ## Functions: the claims -/

/-- C8: when the receiver does not hold exactly the owner type of a member or const member
function (an empty receiver included), `Invoke` returns the empty any for every argument list,
the underlying routine is not called, and the receiver is unchanged. -/
theorem C8_invoke_wrong_receiver {V : Type} (d : MemberDescriptor V) (object : StdAny V)
    (args : List (StdAny V)) (hrecv : any_cast (CType.obj d.GetParent) object = none) :
    (d.Invoke object args).ret = none ∧ (d.Invoke object args).calls = [] ∧
      (d.Invoke object args).object = object := by
  cases d with
  | mutating f =>
    have h : any_cast (CType.obj f.C) object = none := hrecv
    by_cases hlen : args.length = f.Args.length
    · by_cases hv : allValid (bindArgs (f.Args.map CType.obj) args) = true
      · simp [MemberDescriptor.Invoke, MemberFunction.Invoke, Function.Invoke, hlen,
          MemberFunction.InvokeImpl, h, hv]
      · simp [MemberDescriptor.Invoke, MemberFunction.Invoke, Function.Invoke, hlen,
          MemberFunction.InvokeImpl, h, hv]
    · simp [MemberDescriptor.Invoke, MemberFunction.Invoke, Function.Invoke, hlen]
  | constant f =>
    have h : any_cast (CType.obj f.C) object = none := hrecv
    by_cases hlen : args.length = f.Args.length
    · simp [MemberDescriptor.Invoke, ConstMemberFunction.Invoke, Function.Invoke, hlen,
        ConstMemberFunction.InvokeImpl, h]
    · simp [MemberDescriptor.Invoke, ConstMemberFunction.Invoke, Function.Invoke, hlen]

/-- Witness of C8: the const member `Area` of `Circle` invoked on a receiver that holds a
`Point`. -/
theorem C8_invoke_wrong_receiver_witness :
    any_cast (CType.obj (MemberDescriptor.constant areaFunction).GetParent) (anyPoint 1 2) = none ∧
      (((MemberDescriptor.constant areaFunction).Invoke (anyPoint 1 2) []).ret = none ∧
        ((MemberDescriptor.constant areaFunction).Invoke (anyPoint 1 2) []).calls = [] ∧
        ((MemberDescriptor.constant areaFunction).Invoke (anyPoint 1 2) []).object =
          anyPoint 1 2) :=
  ⟨by decide,
    C8_invoke_wrong_receiver (MemberDescriptor.constant areaFunction) (anyPoint 1 2) []
      (by decide)⟩

/-- C9: the specification states that `Invoke` on a non-void function with arguments of exactly the declared
types returns the routine's return value. Evaluated on the free function `int add(int, int)` with
`(3, 4)`: both arguments hold exactly `int` and `add` called directly returns `7`, yet `Invoke`
returns the empty any without calling `add`. The zero-argument member `Area` of a `Circle` of
radius 2 does return its area. -/
theorem C9_invoke_exact_args_returns_empty :
    [anyInt 3, anyInt 4].length = addFunction.Args.length ∧
    any_cast (CType.obj tInt) (anyInt 3) = some (CValue.obj (SampleVal.int 3)) ∧
    any_cast (CType.obj tInt) (anyInt 4) = some (CValue.obj (SampleVal.int 4)) ∧
    addFunction.mFreeFunPtr [CValue.obj (SampleVal.int 3), CValue.obj (SampleVal.int 4)] =
      CValue.obj (SampleVal.int 7) ∧
    addFunction.Invoke none [anyInt 3, anyInt 4] = ⟨none, none, []⟩ ∧
    (areaFunction.Invoke (some ⟨CType.obj tCircle, CValue.obj (SampleVal.circle 2)⟩) []).ret =
      some ⟨CType.obj tInt, CValue.obj (SampleVal.int 12)⟩ := by
  decide

/-- C10: the specification states that a successful `Invoke` of a mutating member leaves the routine's
mutation in the caller's receiver. Evaluated on `int Counter::Next()` with a receiver holding
`Counter{5}`: the call succeeds, the routine runs once on `Counter{5}`, returns `6` and leaves
its receiver as `Counter{6}` (the state of the any inside `InvokeImpl`), yet the any the caller
passed still holds `Counter{5}` after `Invoke` returns. -/
theorem C10_invoke_mutation_not_applied :
    any_cast (CType.obj nextFunction.C) (anyCounter 5) =
      some (CValue.obj (SampleVal.counter 5)) ∧
    (nextFunction.Invoke (anyCounter 5) []).ret = anyInt 6 ∧
    (nextFunction.Invoke (anyCounter 5) []).calls =
      [⟨some (CValue.obj (SampleVal.counter 5)), []⟩] ∧
    (nextFunction.InvokeImpl (anyCounter 5) []).object = anyCounter 6 ∧
    (nextFunction.Invoke (anyCounter 5) []).object = anyCounter 5 := by
  decide

/-- C11: when the number of supplied arguments differs from `GetNumParams()`, `Invoke` of any
function descriptor returns the empty any, the underlying routine is not called, and the receiver
is unchanged, whatever the receiver holds. -/
theorem C11_invoke_arity_mismatch {V : Type} (d : FunctionDescriptor V) (object : StdAny V)
    (args : List (StdAny V)) (hlen : args.length ≠ d.GetNumParams) :
    (d.Invoke object args).ret = none ∧ (d.Invoke object args).calls = [] ∧
      (d.Invoke object args).object = object := by
  cases d with
  | free f =>
    have h : ¬ args.length = f.Args.length := hlen
    simp [FunctionDescriptor.Invoke, FreeFunction.Invoke, Function.Invoke, h]
  | freeVoid f =>
    have h : ¬ args.length = f.Args.length := hlen
    simp [FunctionDescriptor.Invoke, FreeFunctionVoid.Invoke, Function.Invoke, h]
  | member f =>
    have h : ¬ args.length = f.Args.length := hlen
    simp [FunctionDescriptor.Invoke, MemberFunction.Invoke, Function.Invoke, h]
  | memberVoid f =>
    have h : ¬ args.length = f.Args.length := hlen
    simp [FunctionDescriptor.Invoke, MemberFunctionVoid.Invoke, h]
  | constMember f =>
    have h : ¬ args.length = f.Args.length := hlen
    simp [FunctionDescriptor.Invoke, ConstMemberFunction.Invoke, Function.Invoke, h]

/-- Witness of C11: `int add(int, int)` invoked with the single argument `3` on a receiver that
holds a `Point`. -/
theorem C11_invoke_arity_mismatch_witness :
    [anyInt 3].length ≠ (FunctionDescriptor.free addFunction).GetNumParams ∧
      (((FunctionDescriptor.free addFunction).Invoke (anyPoint 1 2) [anyInt 3]).ret = none ∧
        ((FunctionDescriptor.free addFunction).Invoke (anyPoint 1 2) [anyInt 3]).calls = [] ∧
        ((FunctionDescriptor.free addFunction).Invoke (anyPoint 1 2) [anyInt 3]).object =
          anyPoint 1 2) :=
  ⟨by decide,
    C11_invoke_arity_mismatch (FunctionDescriptor.free addFunction) (anyPoint 1 2) [anyInt 3]
      (by decide)⟩

/-! ## Data members: the claims -/

/-- C12: for a mutable direct-field member, an object holding exactly the owner type and a value
`v` holding exactly the member's type, `Set(object, v)` completes and `Get` on the object it
leaves returns a non-empty any that holds the member's type with content `v`. The member pointer
designates a field: reading it after assigning `v` gives `v`. -/
theorem C12_set_get_round_trip {V : Type} (m : PtrDataMember V) (object value : StdAny V)
    (self v : CValue V) (hmut : m.typeIsConst = false)
    (hobj : any_cast (CType.obj m.Class) object = some self)
    (hval : any_cast (CType.obj m.Ty) value = some v)
    (hfield : m.read (m.assign self v) = v) :
    ∃ object2, m.Set object value = Run.done object2 ∧
      m.Get object2 = Run.done (some ⟨CType.obj m.Ty, v⟩) := by
  refine ⟨some ⟨CType.obj m.Class, m.assign self v⟩, ?_, ?_⟩
  · simp [PtrDataMember.Set, hmut, PtrDataMember.SetImplFalse, hobj, hval]
  · simp [PtrDataMember.Get, any_cast, hfield]

/-- Witness of C12: member `x` of `Point`: `Set(p, 10)` on `Point{1, 2}`, then `Get(p) = 10`. -/
theorem C12_set_get_round_trip_witness :
    xMember.typeIsConst = false ∧
      any_cast (CType.obj xMember.Class) (anyPoint 1 2) =
        some (CValue.obj (SampleVal.point 1 2)) ∧
      any_cast (CType.obj xMember.Ty) (anyInt 10) = some (CValue.obj (SampleVal.int 10)) ∧
      (∃ object2, xMember.Set (anyPoint 1 2) (anyInt 10) = Run.done object2 ∧
        xMember.Get object2 = Run.done (some ⟨CType.obj xMember.Ty, CValue.obj (SampleVal.int 10)⟩)) :=
  ⟨by decide, by decide, by decide,
    C12_set_get_round_trip xMember (anyPoint 1 2) (anyInt 10) (CValue.obj (SampleVal.point 1 2))
      (CValue.obj (SampleVal.int 10)) (by decide) (by decide) (by decide) (by decide)⟩

/-- C13: for a data member whose declared type is const, `Set` completes for every object and
every value and leaves the object as it was, so `Get` answers the same before and after. -/
theorem C13_set_const_member_noop {V : Type} (m : PtrDataMember V) (object value : StdAny V)
    (hconst : m.typeIsConst = true) :
    ∃ object2, m.Set object value = Run.done object2 ∧ object2 = object ∧
      m.Get object2 = m.Get object := by
  refine ⟨object, ?_, rfl, rfl⟩
  simp [PtrDataMember.Set, hconst, PtrDataMember.SetImplTrue]

/-- Witness of C13: a `const int` field `x` of `Point`, `Set(p, 10)` on `Point{1, 2}`. -/
theorem C13_set_const_member_noop_witness :
    constXMember.typeIsConst = true ∧
      (∃ object2, constXMember.Set (anyPoint 1 2) (anyInt 10) = Run.done object2 ∧
        object2 = anyPoint 1 2 ∧ constXMember.Get object2 = constXMember.Get (anyPoint 1 2)) :=
  ⟨by decide, C13_set_const_member_noop constXMember (anyPoint 1 2) (anyInt 10) (by decide)⟩

/-- C14: the specification states that `Set` on a mutable member has no effect when the object
or the value does not hold the expected type. Evaluated on member `x` of `Point`: with an object
that holds a `Circle`, with a value that holds a `Point`, and with an empty object on the
accessor pair, `Set` dereferences the null pointer that the failed extraction returned, instead
of completing with the object unchanged. -/
theorem C14_set_mismatch_dereferences_null :
    any_cast (CType.obj xMember.Class) (anyCircle 1) = none ∧
    xMember.Set (anyCircle 1) (anyInt 10) = Run.undefinedBehaviour ∧
    xMember.Set (anyCircle 1) (anyInt 10) ≠ Run.done (anyCircle 1) ∧
    any_cast (CType.obj xMember.Ty) (anyPoint 3 4) = none ∧
    xMember.Set (anyPoint 1 2) (anyPoint 3 4) = Run.undefinedBehaviour ∧
    xAccessors.Set none (anyInt 10) = Run.undefinedBehaviour := by
  decide

/-! ## Conversions: the claims -/

/-- C15: `Convert` on an instance `x` of `From` returns a non-empty any that holds exactly the
`To` type with content `static_cast<To>(x)`, leaves `x` as it was, and `GetFromType` and
`GetToType` return the descriptors of `From` and `To`. -/
theorem C15_convert {V : Type} (c : ConversionImpl V) (x : CValue V) :
    (c.Convert x).ret = some ⟨CType.obj c.To, c.staticCast x⟩ ∧
      any_cast (CType.obj c.To) (c.Convert x).ret = some (c.staticCast x) ∧
      (c.Convert x).object = x ∧
      c.toConversion.GetFromType = c.From ∧ c.toConversion.GetToType = c.To := by
  simp [ConversionImpl.Convert, any_cast, ConversionImpl.toConversion, Conversion.GetFromType,
    Conversion.GetToType]

/-! ## Argument binding and the remaining claims -/

/-- C16: the specification states that the three-statement binding gives the same bound tuple as
extracting each argument once at its exact declared type. Evaluated on the parameter types
`int, int` and the arguments `[3, 4]`: single-pass extraction binds both values, the source's
binding ends with a null pointer at both positions, so the test of the tuple fails where
single-pass binding would pass. No value is converted on the way. -/
theorem C16_binding_differs_from_single_pass :
    singlePassBinding [CType.obj tInt, CType.obj tInt] [anyInt 3, anyInt 4] =
      [some (CValue.obj (SampleVal.int 3)), some (CValue.obj (SampleVal.int 4))] ∧
    bindArgs [CType.obj tInt, CType.obj tInt] [anyInt 3, anyInt 4] = [none, none] ∧
    allValid (singlePassBinding [CType.obj tInt, CType.obj tInt] [anyInt 3, anyInt 4]) = true ∧
    allValid (bindArgs [CType.obj tInt, CType.obj tInt] [anyInt 3, anyInt 4]) = false := by
  decide

/-- C17: `Invoke` on a void-returning function descriptor (free, member or const member) returns
the empty any for every receiver and every argument list, so a call that bound and ran the
routine returns what a failed call returns. -/
theorem C17_void_invoke_returns_empty {V : Type} (d : FunctionDescriptor V)
    (hvoid : d.returnsVoid = true) (object : StdAny V) (args : List (StdAny V)) :
    (d.Invoke object args).ret = none := by
  cases d with
  | free f => simp [FunctionDescriptor.returnsVoid] at hvoid
  | member f => simp [FunctionDescriptor.returnsVoid] at hvoid
  | freeVoid f =>
    by_cases hlen : args.length = f.Args.length
    · by_cases hv : allValid (bindArgs (f.Args.map CType.obj) args) = true
      · simp [FunctionDescriptor.Invoke, FreeFunctionVoid.Invoke, Function.Invoke, hlen,
          FreeFunctionVoid.InvokeImpl, hv]
      · simp [FunctionDescriptor.Invoke, FreeFunctionVoid.Invoke, Function.Invoke, hlen,
          FreeFunctionVoid.InvokeImpl, hv]
    · simp [FunctionDescriptor.Invoke, FreeFunctionVoid.Invoke, Function.Invoke, hlen]
  | memberVoid f =>
    by_cases hlen : args.length = f.Args.length
    · by_cases hv : allValid (bindArgs (f.Args.map CType.obj) args) = true
      · cases hobj : any_cast (CType.obj f.C) object with
        | none =>
          simp [FunctionDescriptor.Invoke, MemberFunctionVoid.Invoke, hlen,
            MemberFunctionVoid.InvokeImpl, hv, hobj]
        | some self =>
          simp [FunctionDescriptor.Invoke, MemberFunctionVoid.Invoke, hlen,
            MemberFunctionVoid.InvokeImpl, hv, hobj]
      · simp [FunctionDescriptor.Invoke, MemberFunctionVoid.Invoke, hlen,
          MemberFunctionVoid.InvokeImpl, hv]
    · simp [FunctionDescriptor.Invoke, MemberFunctionVoid.Invoke, hlen]
  | constMember f =>
    have hret : f.retIsVoid = true := hvoid
    by_cases hlen : args.length = f.Args.length
    · by_cases hv : allValid (bindArgs (f.Args.map CType.obj) args) = true
      · cases hobj : any_cast (CType.obj f.C) object with
        | none =>
          simp [FunctionDescriptor.Invoke, ConstMemberFunction.Invoke, Function.Invoke, hlen,
            ConstMemberFunction.InvokeImpl, hobj]
        | some self =>
          simp [FunctionDescriptor.Invoke, ConstMemberFunction.Invoke, Function.Invoke, hlen,
            ConstMemberFunction.InvokeImpl, hv, hobj, hret]
      · cases hobj : any_cast (CType.obj f.C) object with
        | none =>
          simp [FunctionDescriptor.Invoke, ConstMemberFunction.Invoke, Function.Invoke, hlen,
            ConstMemberFunction.InvokeImpl, hobj]
        | some self =>
          simp [FunctionDescriptor.Invoke, ConstMemberFunction.Invoke, Function.Invoke, hlen,
            ConstMemberFunction.InvokeImpl, hv, hobj]
    · simp [FunctionDescriptor.Invoke, ConstMemberFunction.Invoke, Function.Invoke, hlen]

/-- Witness of C17: `void Tick()` invoked with no argument runs once and returns the empty any,
which is also what `void Log(int)` returns when it is invoked with no argument and does not
run. -/
theorem C17_void_invoke_returns_empty_witness :
    (FunctionDescriptor.freeVoid tickFunction).returnsVoid = true ∧
      ((FunctionDescriptor.freeVoid tickFunction).Invoke none []).ret = none ∧
      ((FunctionDescriptor.freeVoid tickFunction).Invoke none []).calls = [⟨none, []⟩] ∧
      ((FunctionDescriptor.freeVoid logFunction).Invoke none []).ret = none ∧
      ((FunctionDescriptor.freeVoid logFunction).Invoke none []).calls = [] :=
  ⟨by decide,
    C17_void_invoke_returns_empty (FunctionDescriptor.freeVoid tickFunction) (by decide) none [],
    by decide, by decide, by decide⟩

/-- C18: the static check and the dynamic path disagree. In the scenario registry, where a
conversion `int -> double` is registered, the constructor `Circle(double)` and the one-element
argument list `[3]` holding an `int` have the right length, `CanConstruct<int>` is true, the
argument does not hold exactly `double`, and `NewInstance` returns the empty any without calling
the constructor. -/
theorem C18_static_check_and_binding_disagree :
    ∃ (reg : Registry) (c : Constructor SampleVal) (args : List (StdAny SampleVal))
        (ArgTs : List TypePtr),
      args.length = c.GetNumParams ∧
      args.map heldType = ArgTs.map (fun t => some (CType.obj t)) ∧
      HasConversionTo reg tInt tDouble ∧
      c.CanConstruct reg ArgTs = some true ∧
      any_cast (CType.obj tDouble) (anyInt 3) = none ∧
      (c.NewInstance args).ret = none ∧ (c.NewInstance args).calls = [] :=
  ⟨sampleRegistry, circleCtor, [anyInt 3], [tInt], by decide, by decide,
    ⟨⟨tInt, tDouble⟩, by decide, rfl⟩, by decide, by decide, by decide, by decide⟩

/-- C19: a constructor with no declared parameter given the empty argument list always calls the
underlying constructor or factory once and returns a non-empty any holding its result; a free
function with no parameter invoked with no argument always runs the routine once, and when it is
not void its return value comes back. -/
theorem C19_zero_parameters {V : Type} (c : Constructor V) (f : FreeFunction V)
    (g : FreeFunctionVoid V) (object : StdAny V) (hc : c.GetNumParams = 0) (hf : f.Args = [])
    (hg : g.Args = []) :
    c.NewInstance [] = ⟨some ⟨CType.obj c.GetParent, c.underlying []⟩, [], [⟨none, []⟩]⟩ ∧
      f.Invoke object [] =
        ⟨some ⟨CType.obj f.Ret, f.mFreeFunPtr []⟩, object, [⟨none, []⟩]⟩ ∧
      g.Invoke object [] = ⟨none, object, [⟨none, []⟩]⟩ := by
  have hcl : c.mParamTypes = [] := List.length_eq_zero.mp hc
  refine ⟨?_, ?_, ?_⟩
  · cases c with
    | direct d =>
      have hd : d.Args = [] := hcl
      simp [Constructor.NewInstance, Constructor.mParamTypes, Constructor.NewInstanceImpl,
        ConstructorImpl.NewInstanceImpl, hd, bindArgs, convertedArgs, firstExtraction, allValid,
        derefAll, Constructor.GetParent, Constructor.mParent, Constructor.underlying]
    | freeFun d =>
      have hd : d.Args = [] := hcl
      simp [Constructor.NewInstance, Constructor.mParamTypes, Constructor.NewInstanceImpl,
        FreeFunConstructor.NewInstanceImpl, hd, bindArgs, convertedArgs, firstExtraction,
        allValid, derefAll, Constructor.GetParent, Constructor.mParent, Constructor.underlying]
  · simp [FreeFunction.Invoke, Function.Invoke, FreeFunction.InvokeImpl, hf, bindArgs,
      convertedArgs, firstExtraction, allValid, derefAll]
  · simp [FreeFunctionVoid.Invoke, Function.Invoke, FreeFunctionVoid.InvokeImpl, hg, bindArgs,
      convertedArgs, firstExtraction, allValid, derefAll]

/-- Witness of C19: the default constructor `Counter()`, the function `int Answer()` and the
routine `void Tick()`. -/
theorem C19_zero_parameters_witness :
    counterCtor.GetNumParams = 0 ∧ answerFunction.Args = [] ∧ tickFunction.Args = [] ∧
      (counterCtor.NewInstance [] =
          ⟨some ⟨CType.obj counterCtor.GetParent, counterCtor.underlying []⟩, [], [⟨none, []⟩]⟩ ∧
        answerFunction.Invoke (anyPoint 1 2) [] =
          ⟨some ⟨CType.obj answerFunction.Ret, answerFunction.mFreeFunPtr []⟩, anyPoint 1 2,
            [⟨none, []⟩]⟩ ∧
        tickFunction.Invoke (anyPoint 1 2) [] = ⟨none, anyPoint 1 2, [⟨none, []⟩]⟩) :=
  ⟨by decide, by decide, by decide,
    C19_zero_parameters counterCtor answerFunction tickFunction (anyPoint 1 2) (by decide)
      (by decide) (by decide)⟩

/-- C20: invoking a free function, void or not, does not depend on the receiver: for any two
receivers the returned any and the calls of the routine are the same, and each receiver is left
as it was. -/
theorem C20_free_function_ignores_receiver {V : Type} (d : FreeDescriptor V)
    (args : List (StdAny V)) (o1 o2 : StdAny V) :
    (d.Invoke o1 args).ret = (d.Invoke o2 args).ret ∧
      (d.Invoke o1 args).calls = (d.Invoke o2 args).calls ∧
      (d.Invoke o1 args).object = o1 ∧ (d.Invoke o2 args).object = o2 := by
  cases d with
  | returning f =>
    by_cases hlen : args.length = f.Args.length
    · by_cases hv : allValid (bindArgs (f.Args.map CType.obj) args) = true
      · simp [FreeDescriptor.Invoke, FreeFunction.Invoke, Function.Invoke, hlen,
          FreeFunction.InvokeImpl, hv]
      · simp [FreeDescriptor.Invoke, FreeFunction.Invoke, Function.Invoke, hlen,
          FreeFunction.InvokeImpl, hv]
    · simp [FreeDescriptor.Invoke, FreeFunction.Invoke, Function.Invoke, hlen]
  | void f =>
    by_cases hlen : args.length = f.Args.length
    · by_cases hv : allValid (bindArgs (f.Args.map CType.obj) args) = true
      · simp [FreeDescriptor.Invoke, FreeFunctionVoid.Invoke, Function.Invoke, hlen,
          FreeFunctionVoid.InvokeImpl, hv]
      · simp [FreeDescriptor.Invoke, FreeFunctionVoid.Invoke, Function.Invoke, hlen,
          FreeFunctionVoid.InvokeImpl, hv]
    · simp [FreeDescriptor.Invoke, FreeFunctionVoid.Invoke, Function.Invoke, hlen]

end Reflect
